import Mathlib

/-!
Shallow embedding of `signatory-dalek` (src/signatory-dalek/src/lib.rs), a thin
adapter exposing the external `ed25519-dalek` Ed25519 implementation through the
`signatory` signer/verifier traits.

Modelling conventions:
* a byte sequence is a `List Nat`;
* a Rust `Result<T, Error>` is `Except ErrorKind T`;
* a Rust expression that may panic (`.unwrap()`) is wrapped in `Option`:
  `none` models the panic, `some` the returned value;
* the external `ed25519-dalek` crate is not part of this repository, so the
  exact operations the adapter calls on it are collected in a `DalekApi`
  record; the adapter code is transcribed literally over an arbitrary
  `DalekApi`, and the behavioural facts the spec attributes to the underlying
  library appear as explicit hypotheses of the theorems.
-/

set_option maxRecDepth 40000

namespace SignatoryDalek

/-- A byte sequence. -/
abbrev Bytes := List Nat

/-- Modelled from the spec: the error taxonomy of the `signatory` core crate
(spec section 7).  The adapter source only ever constructs
`ErrorKind::SignatureInvalid` (via `map_err` in the two verify impls). -/
inductive ErrorKind where
  | InvalidKeyLength
  | InvalidKeyEncoding
  | InvalidSignatureLength
  | InvalidSignatureEncoding
  | SignatureInvalid
  deriving DecidableEq, Repr

/-- Modelled from the spec: the surface of the external `ed25519-dalek` crate
that the adapter calls.  Key and signature values are represented by their
byte encodings.  Fields:
* `secretKeyFromBytes`  — `SecretKey::from_bytes` (succeeds exactly on 32 bytes);
* `publicFromSecret`    — `PublicKey::from(&secret)` key derivation;
* `publicKeyFromBytes`  — `PublicKey::from_bytes` (parses/validates a compressed point);
* `sign`                — `Keypair::sign` (secret, public, message → 64-byte signature);
* `signPrehashed`       — `Keypair::sign_prehashed` (adds a 64-byte digest and optional context);
* `signatureFromBytes`  — `ed25519_dalek::Signature::from_bytes`;
* `verify`              — `PublicKey::verify`, `true` iff the signature is accepted;
* `verifyPrehashed`     — `PublicKey::verify_prehashed`. -/
structure DalekApi where
  secretKeyFromBytes : Bytes → Option Bytes
  publicFromSecret : Bytes → Bytes
  publicKeyFromBytes : Bytes → Option Bytes
  sign : Bytes → Bytes → Bytes → Bytes
  signPrehashed : Bytes → Bytes → Bytes → Option Bytes → Bytes
  signatureFromBytes : Bytes → Option Bytes
  verify : Bytes → Bytes → Bytes → Bool
  verifyPrehashed : Bytes → Bytes → Option Bytes → Bytes → Bool

/-- Modelled from the spec: `signatory::ed25519::PublicKey::from_bytes`, a
fixed-size newtype constructor over exactly 32 raw bytes (spec section 6). -/
def ed25519PublicKeyFromBytes (b : Bytes) : Option Bytes :=
  if b.length = 32 then some b else none

/-- Modelled from the spec: `signatory::ed25519::Signature::from_bytes`, a
fixed-size newtype constructor over exactly 64 raw bytes (spec section 6). -/
def ed25519SignatureFromBytes (b : Bytes) : Option Bytes :=
  if b.length = 64 then some b else none

/-- `ed25519_dalek::Keypair`: a derived secret key together with its public key. -/
structure Keypair where
  secret : Bytes
  public : Bytes
  deriving DecidableEq, Repr

/-- `keypair_from_seed` (lib.rs lines 130-134): `SecretKey::from_bytes` on the
seed bytes, `.unwrap()` (the `none` result models the panic), then derive the
public key. -/
def keypair_from_seed (A : DalekApi) (seed : Bytes) : Option Keypair :=
  match A.secretKeyFromBytes seed with
  | none => none
  | some secret => some { secret := secret, public := A.publicFromSecret secret }

/-- `Ed25519Signer` (lib.rs line 31): holds a dalek keypair. -/
structure Ed25519Signer where
  keypair : Keypair
  deriving DecidableEq, Repr

/-- `From<&ed25519::Seed> for Ed25519Signer` (lib.rs lines 33-38). -/
def Ed25519Signer.from_seed (A : DalekApi) (seed : Bytes) : Option Ed25519Signer :=
  match keypair_from_seed A seed with
  | none => none
  | some kp => some { keypair := kp }

/-- `PublicKeyed::public_key for Ed25519Signer` (lib.rs lines 40-44):
`Ok(ed25519::PublicKey::from_bytes(self.0.public.as_bytes()).unwrap())`. -/
def Ed25519Signer.public_key (s : Ed25519Signer) : Option (Except ErrorKind Bytes) :=
  match ed25519PublicKeyFromBytes s.keypair.public with
  | none => none
  | some pk => some (Except.ok pk)

/-- `Signer::sign for Ed25519Signer` (lib.rs lines 46-51): delegate to
`Keypair::sign`, re-parse the 64 signature bytes through the signatory newtype,
`.unwrap()`, and return `Ok`. -/
def Ed25519Signer.sign (A : DalekApi) (s : Ed25519Signer) (msg : Bytes) :
    Option (Except ErrorKind Bytes) :=
  let signature := A.sign s.keypair.secret s.keypair.public msg
  match ed25519SignatureFromBytes signature with
  | none => none
  | some sig => some (Except.ok sig)

/-- `Ed25519PhSigner` (lib.rs line 54): holds a dalek keypair. -/
structure Ed25519PhSigner where
  keypair : Keypair
  deriving DecidableEq, Repr

/-- `From<&ed25519::Seed> for Ed25519PhSigner` (lib.rs lines 56-61). -/
def Ed25519PhSigner.from_seed (A : DalekApi) (seed : Bytes) : Option Ed25519PhSigner :=
  match keypair_from_seed A seed with
  | none => none
  | some kp => some { keypair := kp }

/-- `PublicKeyed::public_key for Ed25519PhSigner` (lib.rs lines 63-67). -/
def Ed25519PhSigner.public_key (s : Ed25519PhSigner) : Option (Except ErrorKind Bytes) :=
  match ed25519PublicKeyFromBytes s.keypair.public with
  | none => none
  | some pk => some (Except.ok pk)

/-- `DigestSigner::sign for Ed25519PhSigner` (lib.rs lines 70-83): the context
is fixed to `None`, then `sign_prehashed` is called, its bytes re-parsed and
unwrapped. -/
def Ed25519PhSigner.sign (A : DalekApi) (s : Ed25519PhSigner) (digest : Bytes) :
    Option (Except ErrorKind Bytes) :=
  let context : Option Bytes := none
  match ed25519SignatureFromBytes
      (A.signPrehashed s.keypair.secret s.keypair.public digest context) with
  | none => none
  | some sig => some (Except.ok sig)

/-- `Ed25519Verifier` (lib.rs line 87): holds a dalek public key. -/
structure Ed25519Verifier where
  public : Bytes
  deriving DecidableEq, Repr

/-- `From<&ed25519::PublicKey> for Ed25519Verifier` (lib.rs lines 89-93):
`ed25519_dalek::PublicKey::from_bytes(..).unwrap()` — the `none` result models
the panic on a malformed encoding. -/
def Ed25519Verifier.from_public_key (A : DalekApi) (pk : Bytes) : Option Ed25519Verifier :=
  match A.publicKeyFromBytes pk with
  | none => none
  | some rep => some { public := rep }

/-- `Verifier::verify for Ed25519Verifier` (lib.rs lines 95-102): parse the
signature bytes with `ed25519_dalek::Signature::from_bytes` and `.unwrap()`,
then delegate to `PublicKey::verify`, mapping any failure to
`ErrorKind::SignatureInvalid`. -/
def Ed25519Verifier.verify (A : DalekApi) (v : Ed25519Verifier) (msg sig : Bytes) :
    Option (Except ErrorKind Unit) :=
  match A.signatureFromBytes sig with
  | none => none
  | some dalekSig =>
    some (if A.verify v.public msg dalekSig then Except.ok ()
          else Except.error ErrorKind.SignatureInvalid)

/-- `Ed25519PhVerifier` (lib.rs line 106): holds a dalek public key. -/
structure Ed25519PhVerifier where
  public : Bytes
  deriving DecidableEq, Repr

/-- `From<&ed25519::PublicKey> for Ed25519PhVerifier` (lib.rs lines 108-112). -/
def Ed25519PhVerifier.from_public_key (A : DalekApi) (pk : Bytes) : Option Ed25519PhVerifier :=
  match A.publicKeyFromBytes pk with
  | none => none
  | some rep => some { public := rep }

/-- `DigestVerifier::verify for Ed25519PhVerifier` (lib.rs lines 115-127):
context fixed to `None`, signature bytes parsed and unwrapped, then
`verify_prehashed`, mapping any failure to `ErrorKind::SignatureInvalid`. -/
def Ed25519PhVerifier.verify (A : DalekApi) (v : Ed25519PhVerifier) (digest sig : Bytes) :
    Option (Except ErrorKind Unit) :=
  let context : Option Bytes := none
  match A.signatureFromBytes sig with
  | none => none
  | some dalekSig =>
    some (if A.verifyPrehashed v.public digest context dalekSig then Except.ok ()
          else Except.error ErrorKind.SignatureInvalid)

/-- The sign-then-verify pipeline of the spec (section 8):
`verify(public_key(from_seed(S)), M, sign(from_seed(S), M))`, built from the
adapter operations above. -/
def signVerifyRoundtrip (A : DalekApi) (seed msg : Bytes) : Option (Except ErrorKind Unit) :=
  match Ed25519Signer.from_seed A seed with
  | none => none
  | some signer =>
    match Ed25519Signer.public_key signer with
    | none => none
    | some (Except.error e) => some (Except.error e)
    | some (Except.ok pk) =>
      match Ed25519Verifier.from_public_key A pk with
      | none => none
      | some v =>
        match Ed25519Signer.sign A signer msg with
        | none => none
        | some (Except.error e) => some (Except.error e)
        | some (Except.ok sig) => Ed25519Verifier.verify A v msg sig

/-- The pre-hashed sign-then-verify pipeline of the spec (section 8), where the
second argument of the verification step may be a different digest than the one
signed. -/
def phRoundtrip (A : DalekApi) (seed signedDigest checkedDigest : Bytes) :
    Option (Except ErrorKind Unit) :=
  match Ed25519PhSigner.from_seed A seed with
  | none => none
  | some signer =>
    match Ed25519PhSigner.public_key signer with
    | none => none
    | some (Except.error e) => some (Except.error e)
    | some (Except.ok pk) =>
      match Ed25519PhVerifier.from_public_key A pk with
      | none => none
      | some v =>
        match Ed25519PhSigner.sign A signer signedDigest with
        | none => none
        | some (Except.error e) => some (Except.error e)
        | some (Except.ok sig) => Ed25519PhVerifier.verify A v checkedDigest sig

/-- Flip bit `n` of a byte sequence: XOR bit `n % 8` into byte `n / 8`. -/
def flipBit (bs : Bytes) (n : Nat) : Bytes :=
  bs.set (n / 8) (Nat.xor (bs.getD (n / 8) 0) (2 ^ (n % 8)))

/-- A deterministic 256-valued digest of a byte sequence, used by the concrete
`DalekApi` instances below. -/
def mix (m : Bytes) : Nat :=
  m.foldl (fun a b => (a * 31 + b + 1) % 256) 7

/-- A toy deterministic 64-byte signature of a keypair and message, used by the
concrete `DalekApi` instances below. -/
def toySign (sk pk m : Bytes) : Bytes :=
  mix (sk ++ pk ++ m) :: List.replicate 63 0

/-- A concrete `DalekApi` instance: the public key equals the secret key and a
signature is the `toySign` digest.  It satisfies the behavioural contract the
spec attributes to the underlying library on the concrete inputs used by the
witnesses. -/
def toyApi : DalekApi where
  secretKeyFromBytes b := if b.length = 32 then some b else none
  publicFromSecret s := s
  publicKeyFromBytes b := if b.length = 32 then some b else none
  sign := toySign
  signPrehashed sk pk d ctx :=
    match ctx with
    | none => toySign sk pk d
    | some c => toySign sk pk (c ++ d)
  signatureFromBytes b := if b.length = 64 then some b else none
  verify pk m sig := decide (sig = toySign pk pk m)
  verifyPrehashed pk d ctx sig :=
    match ctx with
    | none => decide (sig = toySign pk pk d)
    | some c => decide (sig = toySign pk pk (c ++ d))

/-- A second concrete `DalekApi` instance: it agrees with `toyApi` whenever the
pre-hashed context is `none` and differs from it on every `some` context. -/
def toyApi2 : DalekApi where
  secretKeyFromBytes b := if b.length = 32 then some b else none
  publicFromSecret s := s
  publicKeyFromBytes b := if b.length = 32 then some b else none
  sign := toySign
  signPrehashed sk pk d ctx :=
    match ctx with
    | none => toySign sk pk d
    | some _ => List.replicate 64 1
  signatureFromBytes b := if b.length = 64 then some b else none
  verify pk m sig := decide (sig = toySign pk pk m)
  verifyPrehashed pk d ctx sig :=
    match ctx with
    | none => decide (sig = toySign pk pk d)
    | some _ => false

/-- A concrete `DalekApi` instance modelling the validating behaviour the spec
attributes to the underlying library: `publicKeyFromBytes` rejects 32-byte
strings that are not canonical point encodings (modelled as first byte ≥ 128)
and `signatureFromBytes` rejects 64-byte strings whose last byte has high bits
set (the malleability check the spec's parse-error taxonomy refers to). -/
def strictApi : DalekApi where
  secretKeyFromBytes b := if b.length = 32 then some b else none
  publicFromSecret s := s
  publicKeyFromBytes b := if b.length = 32 ∧ b.getD 0 0 < 128 then some b else none
  sign := toySign
  signPrehashed sk pk d ctx :=
    match ctx with
    | none => toySign sk pk d
    | some c => toySign sk pk (c ++ d)
  signatureFromBytes b := if b.length = 64 ∧ b.getD 63 0 < 32 then some b else none
  verify pk m sig := decide (sig = toySign pk pk m)
  verifyPrehashed pk d ctx sig :=
    match ctx with
    | none => decide (sig = toySign pk pk d)
    | some c => decide (sig = toySign pk pk (c ++ d))

/-- The all-zero 32-byte seed used by the witnesses (spec section 8, concrete
scenario). -/
def seed0 : Bytes := List.replicate 32 0

/-- The message bytes of `b"test"` used by the witnesses. -/
def msg0 : Bytes := [116, 101, 115, 116]

/-- A concrete 64-byte digest used by the pre-hashed witnesses. -/
def digest0 : Bytes := List.replicate 64 7

/-- A second, different concrete 64-byte digest. -/
def digest1 : Bytes := 1 :: List.replicate 63 7

/-- A 32-byte public-key encoding that `strictApi` rejects as malformed. -/
def badPk : Bytes := 200 :: List.replicate 31 0

/-- A 64-byte signature encoding that `strictApi` rejects at parse time. -/
def badSig : Bytes := List.replicate 63 0 ++ [255]

/-- Claim C1: for every valid 32-byte seed and every message, constructing an
`Ed25519Signer` from the seed, signing the message, and verifying it with an
`Ed25519Verifier` built from that signer's public key returns `Ok(())` — under
the behavioural contract of the underlying library (secret-key parsing succeeds
on the seed, derived public keys are 32 bytes and parse back, signatures are 64
bytes and parse back, and the primitive accepts its own signature). -/
theorem claim1_sign_verify_roundtrip (A : DalekApi) (seed msg sk rep ds : Bytes)
    (hsk : A.secretKeyFromBytes seed = some sk)
    (hpublen : (A.publicFromSecret sk).length = 32)
    (hrep : A.publicKeyFromBytes (A.publicFromSecret sk) = some rep)
    (hsiglen : (A.sign sk (A.publicFromSecret sk) msg).length = 64)
    (hparse : A.signatureFromBytes (A.sign sk (A.publicFromSecret sk) msg) = some ds)
    (hver : A.verify rep msg ds = true) :
    signVerifyRoundtrip A seed msg = some (Except.ok ()) := by
  simp [signVerifyRoundtrip, Ed25519Signer.from_seed, keypair_from_seed, hsk,
    Ed25519Signer.public_key, ed25519PublicKeyFromBytes, hpublen,
    Ed25519Verifier.from_public_key, hrep, Ed25519Signer.sign,
    ed25519SignatureFromBytes, hsiglen, Ed25519Verifier.verify, hparse, hver]

/-- Claim C1 witness: the roundtrip at the all-zero seed and message `test`
under the concrete `toyApi` instance. -/
theorem claim1_witness :
    signVerifyRoundtrip toyApi seed0 msg0 = some (Except.ok ()) :=
  claim1_sign_verify_roundtrip toyApi seed0 msg0 seed0 seed0 (toySign seed0 seed0 msg0)
    (by decide) (by decide) (by decide) (by decide) (by decide) (by decide)

/-- Claim C2: whenever the signature bytes parse, `verify` returns `Ok(())`
exactly when the underlying primitive accepts the signature over the message
under the held public key; on rejection it returns the `SignatureInvalid` error
kind as a value, and no other error kind is ever produced. -/
theorem claim2_verify_iff (A : DalekApi) (v : Ed25519Verifier) (msg sig ds : Bytes)
    (hparse : A.signatureFromBytes sig = some ds) :
    (Ed25519Verifier.verify A v msg sig = some (Except.ok ()) ↔
      A.verify v.public msg ds = true)
    ∧ (A.verify v.public msg ds = false →
        Ed25519Verifier.verify A v msg sig = some (Except.error ErrorKind.SignatureInvalid))
    ∧ (∀ e, Ed25519Verifier.verify A v msg sig = some (Except.error e) →
        e = ErrorKind.SignatureInvalid) := by
  unfold Ed25519Verifier.verify
  rw [hparse]
  cases h : A.verify v.public msg ds <;> simp [h]

/-- Claim C2 witness: the equivalence applied at `toyApi`, the all-zero public
key, message `test` and the matching toy signature. -/
theorem claim2_witness :
    Ed25519Verifier.verify toyApi ⟨seed0⟩ msg0 (toySign seed0 seed0 msg0)
      = some (Except.ok ()) :=
  (claim2_verify_iff toyApi ⟨seed0⟩ msg0 (toySign seed0 seed0 msg0)
    (toySign seed0 seed0 msg0) (by decide)).1.mpr (by decide)

/-- Claim C3 counterexample: at the malformed 32-byte public-key encoding
`badPk` (rejected by the validating `strictApi` instance), both verifier
constructions hit the internal `unwrap` — modelled by the `none` result, the
panic — instead of returning an invalid-key error value to the caller. -/
theorem claim3_counterexample :
    Ed25519Verifier.from_public_key strictApi badPk = none
    ∧ Ed25519PhVerifier.from_public_key strictApi badPk = none := by
  constructor <;> decide

/-- Claim C3 (amended): constructing an `Ed25519Verifier` or `Ed25519PhVerifier`
from a 32-byte public key succeeds for every encoding the underlying parser
accepts; when the parser rejects the encoding the construction panics on the
internal `unwrap` (modelled `none`) and returns no error value. -/
theorem claim3_from_public_key (A : DalekApi) (pk rep : Bytes) :
    (A.publicKeyFromBytes pk = some rep →
      Ed25519Verifier.from_public_key A pk = some ⟨rep⟩
      ∧ Ed25519PhVerifier.from_public_key A pk = some ⟨rep⟩)
    ∧ (A.publicKeyFromBytes pk = none →
      Ed25519Verifier.from_public_key A pk = none
      ∧ Ed25519PhVerifier.from_public_key A pk = none) := by
  constructor <;> intro h <;>
    simp [Ed25519Verifier.from_public_key, Ed25519PhVerifier.from_public_key, h]

/-- Claim C3 witness: the amended statement applied at `strictApi` and the
well-formed all-zero public key. -/
theorem claim3_witness :
    Ed25519Verifier.from_public_key strictApi seed0 = some ⟨seed0⟩
    ∧ Ed25519PhVerifier.from_public_key strictApi seed0 = some ⟨seed0⟩ :=
  (claim3_from_public_key strictApi seed0 seed0).1 (by decide)

/-- Claim C4: signer construction and signing are deterministic — two
`Ed25519Signer`s built from equal seeds are equal, hence return identical
public keys and identical signatures for equal messages (and `public_key` is a
pure function, so calling it twice on the same signer yields the same value). -/
theorem claim4_deterministic (A : DalekApi) (seed msg : Bytes) (s t : Ed25519Signer)
    (hs : Ed25519Signer.from_seed A seed = some s)
    (ht : Ed25519Signer.from_seed A seed = some t) :
    s = t ∧ Ed25519Signer.public_key s = Ed25519Signer.public_key t
    ∧ Ed25519Signer.sign A s msg = Ed25519Signer.sign A t msg := by
  have h : s = t := by rw [hs] at ht; exact Option.some.inj ht
  subst h
  exact ⟨rfl, rfl, rfl⟩

/-- Claim C4 witness: determinism applied at `toyApi`, the all-zero seed and
message `test`. -/
theorem claim4_witness :
    (⟨⟨seed0, seed0⟩⟩ : Ed25519Signer) = ⟨⟨seed0, seed0⟩⟩
    ∧ Ed25519Signer.public_key ⟨⟨seed0, seed0⟩⟩ = Ed25519Signer.public_key ⟨⟨seed0, seed0⟩⟩
    ∧ Ed25519Signer.sign toyApi ⟨⟨seed0, seed0⟩⟩ msg0
      = Ed25519Signer.sign toyApi ⟨⟨seed0, seed0⟩⟩ msg0 :=
  claim4_deterministic toyApi seed0 msg0 ⟨⟨seed0, seed0⟩⟩ ⟨⟨seed0, seed0⟩⟩
    (by decide) (by decide)

/-- Claim C5 counterexample: under the validating `strictApi` instance, the toy
signature over `test` verifies as `Ok(())`, yet flipping its bit 511 — which
sets a high bit of the last byte, a flip the signature parser rejects — makes
`verify` hit the internal `unwrap` (modelled by the `none` result, the panic)
instead of failing with the `SignatureInvalid` error kind as the claim states
every single-bit flip must. -/
theorem claim5_counterexample :
    Ed25519Verifier.verify strictApi ⟨seed0⟩ msg0 (toySign seed0 seed0 msg0)
      = some (Except.ok ())
    ∧ Ed25519Verifier.verify strictApi ⟨seed0⟩ msg0
        (flipBit (toySign seed0 seed0 msg0) 511) = none := by
  constructor <;> rfl

/-- Claim C5 (amended): flipping a single bit of the message, or of the
signature so long as the flipped signature still parses, makes `verify` fail
with the `SignatureInvalid` error kind (given the underlying primitive rejects
the altered pair); a flip after which the signature bytes no longer parse
instead hits the internal `unwrap` and panics (modelled `none`), returning no
error at all. -/
theorem claim5_bitflip_rejected (A : DalekApi) (v : Ed25519Verifier)
    (msg sig : Bytes) (n k j : Nat) (ds ds2 : Bytes)
    (hparse1 : A.signatureFromBytes (flipBit sig n) = some ds)
    (hrej1 : A.verify v.public msg ds = false)
    (hparse2 : A.signatureFromBytes sig = some ds2)
    (hrej2 : A.verify v.public (flipBit msg k) ds2 = false)
    (hfail : A.signatureFromBytes (flipBit sig j) = none) :
    Ed25519Verifier.verify A v msg (flipBit sig n)
      = some (Except.error ErrorKind.SignatureInvalid)
    ∧ Ed25519Verifier.verify A v (flipBit msg k) sig
      = some (Except.error ErrorKind.SignatureInvalid)
    ∧ Ed25519Verifier.verify A v msg (flipBit sig j) = none := by
  refine ⟨?_, ?_, ?_⟩ <;>
    simp [Ed25519Verifier.verify, hparse1, hparse2, hrej1, hrej2, hfail]

/-- Claim C5 witness: under `strictApi`, flipping bit 0 of the toy signature or
bit 0 of the message yields `SignatureInvalid`, while flipping bit 511 of the
signature makes the parse fail and the operation panic. -/
theorem claim5_witness :
    Ed25519Verifier.verify strictApi ⟨seed0⟩ msg0 (flipBit (toySign seed0 seed0 msg0) 0)
      = some (Except.error ErrorKind.SignatureInvalid)
    ∧ Ed25519Verifier.verify strictApi ⟨seed0⟩ (flipBit msg0 0) (toySign seed0 seed0 msg0)
      = some (Except.error ErrorKind.SignatureInvalid)
    ∧ Ed25519Verifier.verify strictApi ⟨seed0⟩ msg0
        (flipBit (toySign seed0 seed0 msg0) 511) = none :=
  claim5_bitflip_rejected strictApi ⟨seed0⟩ msg0 (toySign seed0 seed0 msg0) 0 0 511
    (flipBit (toySign seed0 seed0 msg0) 0) (toySign seed0 seed0 msg0)
    (by decide) (by decide) (by decide) (by decide) (by decide)

/-- Claim C6: for a fixed 64-byte digest, the pre-hashed sign-then-verify
pipeline succeeds, and verifying the same signature against a different digest
fails with `SignatureInvalid` — under the contract of the underlying pre-hashed
primitive (it accepts its own signature at the signed digest and rejects it at
the other digest). -/
theorem claim6_prehashed_roundtrip (A : DalekApi) (seed d d2 sk rep ds : Bytes)
    (hsk : A.secretKeyFromBytes seed = some sk)
    (hpublen : (A.publicFromSecret sk).length = 32)
    (hrep : A.publicKeyFromBytes (A.publicFromSecret sk) = some rep)
    (hsiglen : (A.signPrehashed sk (A.publicFromSecret sk) d none).length = 64)
    (hparse : A.signatureFromBytes (A.signPrehashed sk (A.publicFromSecret sk) d none) = some ds)
    (hacc : A.verifyPrehashed rep d none ds = true)
    (hrej : A.verifyPrehashed rep d2 none ds = false) :
    phRoundtrip A seed d d = some (Except.ok ())
    ∧ phRoundtrip A seed d d2 = some (Except.error ErrorKind.SignatureInvalid) := by
  constructor <;>
    simp [phRoundtrip, Ed25519PhSigner.from_seed, keypair_from_seed, hsk,
      Ed25519PhSigner.public_key, ed25519PublicKeyFromBytes, hpublen,
      Ed25519PhVerifier.from_public_key, hrep, Ed25519PhSigner.sign,
      ed25519SignatureFromBytes, hsiglen, Ed25519PhVerifier.verify, hparse, hacc, hrej]

/-- Claim C6 witness: the pre-hashed roundtrip at the all-zero seed succeeds on
`digest0` and fails with `SignatureInvalid` on the different `digest1`. -/
theorem claim6_witness :
    phRoundtrip toyApi seed0 digest0 digest0 = some (Except.ok ())
    ∧ phRoundtrip toyApi seed0 digest0 digest1
      = some (Except.error ErrorKind.SignatureInvalid) :=
  claim6_prehashed_roundtrip toyApi seed0 digest0 digest1 seed0 seed0
    (toySign seed0 seed0 digest0)
    (by decide) (by decide) (by decide) (by decide) (by decide) (by decide) (by decide)

/-- Claim C7: the pre-hashed sign and verify operations consult the underlying
primitive only at the empty (`none`) domain-separation context — two libraries
that agree at context `none` produce identical results, whatever they do at any
other context. -/
theorem claim7_context_none (A B : DalekApi) (s : Ed25519PhSigner)
    (v : Ed25519PhVerifier) (d sig ds : Bytes)
    (hsig : A.signPrehashed s.keypair.secret s.keypair.public d none
          = B.signPrehashed s.keypair.secret s.keypair.public d none)
    (hpA : A.signatureFromBytes sig = some ds)
    (hpB : B.signatureFromBytes sig = some ds)
    (hv : A.verifyPrehashed v.public d none ds = B.verifyPrehashed v.public d none ds) :
    Ed25519PhSigner.sign A s d = Ed25519PhSigner.sign B s d
    ∧ Ed25519PhVerifier.verify A v d sig = Ed25519PhVerifier.verify B v d sig := by
  constructor
  · simp [Ed25519PhSigner.sign, hsig]
  · simp [Ed25519PhVerifier.verify, hpA, hpB, hv]

/-- Claim C7 witness: `toyApi` and `toyApi2` agree at context `none` and differ
everywhere else, yet the adapter's pre-hashed sign and verify coincide on
them. -/
theorem claim7_witness :
    Ed25519PhSigner.sign toyApi ⟨⟨seed0, seed0⟩⟩ digest0
      = Ed25519PhSigner.sign toyApi2 ⟨⟨seed0, seed0⟩⟩ digest0
    ∧ Ed25519PhVerifier.verify toyApi ⟨seed0⟩ digest0 (toySign seed0 seed0 digest0)
      = Ed25519PhVerifier.verify toyApi2 ⟨seed0⟩ digest0 (toySign seed0 seed0 digest0) :=
  claim7_context_none toyApi toyApi2 ⟨⟨seed0, seed0⟩⟩ ⟨seed0⟩ digest0
    (toySign seed0 seed0 digest0) (toySign seed0 seed0 digest0)
    (by decide) (by decide) (by decide) (by decide)

/-- Claim C8: `sign` returns `Ok` with the delegated signature for every
message whenever the underlying signature is 64 bytes (as the library
guarantees), `public_key` returns `Ok` with the held public key whenever it is
32 bytes, and neither operation has any error-returning branch at all. -/
theorem claim8_sign_total (A : DalekApi) (s : Ed25519Signer) (msg : Bytes) :
    ((A.sign s.keypair.secret s.keypair.public msg).length = 64 →
      Ed25519Signer.sign A s msg
        = some (Except.ok (A.sign s.keypair.secret s.keypair.public msg)))
    ∧ (s.keypair.public.length = 32 →
      Ed25519Signer.public_key s = some (Except.ok s.keypair.public))
    ∧ (∀ e, Ed25519Signer.sign A s msg ≠ some (Except.error e))
    ∧ (∀ e, Ed25519Signer.public_key s ≠ some (Except.error e)) := by
  refine ⟨?_, ?_, ?_, ?_⟩
  · intro h
    simp [Ed25519Signer.sign, ed25519SignatureFromBytes, h]
  · intro h
    simp [Ed25519Signer.public_key, ed25519PublicKeyFromBytes, h]
  · intro e
    cases hx : ed25519SignatureFromBytes (A.sign s.keypair.secret s.keypair.public msg) <;>
      simp [Ed25519Signer.sign, hx]
  · intro e
    cases hx : ed25519PublicKeyFromBytes s.keypair.public <;>
      simp [Ed25519Signer.public_key, hx]

/-- Claim C8 witness: signing `test` and reading the public key under `toyApi`
at the all-zero keypair both return `Ok`. -/
theorem claim8_witness :
    Ed25519Signer.sign toyApi ⟨⟨seed0, seed0⟩⟩ msg0
      = some (Except.ok (toyApi.sign seed0 seed0 msg0))
    ∧ Ed25519Signer.public_key ⟨⟨seed0, seed0⟩⟩ = some (Except.ok seed0) :=
  ⟨(claim8_sign_total toyApi ⟨⟨seed0, seed0⟩⟩ msg0).1 (by decide),
   (claim8_sign_total toyApi ⟨⟨seed0, seed0⟩⟩ msg0).2.1 (by decide)⟩

/-- Claim C9 counterexample: at the 64-byte signature encoding `badSig`, which
the validating `strictApi` parser rejects, both verify operations hit the
internal `unwrap` — modelled by the `none` result, the panic — instead of
returning an `InvalidSignatureLength` or `InvalidSignatureEncoding` error value
to the caller. -/
theorem claim9_counterexample :
    Ed25519Verifier.verify strictApi ⟨seed0⟩ msg0 badSig = none
    ∧ Ed25519PhVerifier.verify strictApi ⟨seed0⟩ digest0 badSig = none := by
  constructor <;> rfl

/-- Claim C9 (amended): when the signature bytes fail to parse inside `verify`
(plain or pre-hashed), the operation panics on the internal `unwrap` (modelled
`none`); no typed parse error is returned, and in particular the parse failure
never surfaces as a `SignatureInvalid` verification failure. -/
theorem claim9_parse_failure_panics (A : DalekApi) (v : Ed25519Verifier)
    (pv : Ed25519PhVerifier) (msg d sig : Bytes)
    (h : A.signatureFromBytes sig = none) :
    Ed25519Verifier.verify A v msg sig = none
    ∧ Ed25519PhVerifier.verify A pv d sig = none := by
  constructor <;> simp [Ed25519Verifier.verify, Ed25519PhVerifier.verify, h]

/-- Claim C9 witness: the amended statement applied at `strictApi` and the
rejected encoding `badSig`. -/
theorem claim9_witness :
    Ed25519Verifier.verify strictApi ⟨seed0⟩ msg0 badSig = none
    ∧ Ed25519PhVerifier.verify strictApi ⟨seed0⟩ digest0 badSig = none :=
  claim9_parse_failure_panics strictApi ⟨seed0⟩ ⟨seed0⟩ msg0 digest0 badSig (by decide)

/-- Claim C10: under the library's byte-length contract (secret-key parsing
succeeds on the 32-byte seed, derived public keys are 32 bytes, plain and
pre-hashed signatures are 64 bytes), every internal `unwrap` in
`keypair_from_seed`, `public_key` and the two sign operations takes its `some`
branch: the operations are total and never panic. -/
theorem claim10_no_unwrap_panics (A : DalekApi) (seed msg d sk : Bytes)
    (hsk : A.secretKeyFromBytes seed = some sk)
    (hpublen : (A.publicFromSecret sk).length = 32)
    (hsiglen : (A.sign sk (A.publicFromSecret sk) msg).length = 64)
    (hphlen : (A.signPrehashed sk (A.publicFromSecret sk) d none).length = 64) :
    keypair_from_seed A seed = some ⟨sk, A.publicFromSecret sk⟩
    ∧ Ed25519Signer.from_seed A seed = some ⟨⟨sk, A.publicFromSecret sk⟩⟩
    ∧ (Ed25519Signer.public_key ⟨⟨sk, A.publicFromSecret sk⟩⟩).isSome = true
    ∧ (Ed25519Signer.sign A ⟨⟨sk, A.publicFromSecret sk⟩⟩ msg).isSome = true
    ∧ Ed25519PhSigner.from_seed A seed = some ⟨⟨sk, A.publicFromSecret sk⟩⟩
    ∧ (Ed25519PhSigner.public_key ⟨⟨sk, A.publicFromSecret sk⟩⟩).isSome = true
    ∧ (Ed25519PhSigner.sign A ⟨⟨sk, A.publicFromSecret sk⟩⟩ d).isSome = true := by
  refine ⟨?_, ?_, ?_, ?_, ?_, ?_, ?_⟩ <;>
    simp [keypair_from_seed, hsk, Ed25519Signer.from_seed, Ed25519Signer.public_key,
      ed25519PublicKeyFromBytes, hpublen, Ed25519Signer.sign, ed25519SignatureFromBytes,
      hsiglen, Ed25519PhSigner.from_seed, Ed25519PhSigner.public_key,
      Ed25519PhSigner.sign, hphlen]

/-- Claim C10 witness: under `toyApi`, at the all-zero seed, message `test` and
`digest0`, every unwrap-bearing operation returns a value. -/
theorem claim10_witness :
    keypair_from_seed toyApi seed0 = some ⟨seed0, toyApi.publicFromSecret seed0⟩
    ∧ Ed25519Signer.from_seed toyApi seed0
      = some ⟨⟨seed0, toyApi.publicFromSecret seed0⟩⟩
    ∧ (Ed25519Signer.public_key ⟨⟨seed0, toyApi.publicFromSecret seed0⟩⟩).isSome = true
    ∧ (Ed25519Signer.sign toyApi ⟨⟨seed0, toyApi.publicFromSecret seed0⟩⟩ msg0).isSome = true
    ∧ Ed25519PhSigner.from_seed toyApi seed0
      = some ⟨⟨seed0, toyApi.publicFromSecret seed0⟩⟩
    ∧ (Ed25519PhSigner.public_key ⟨⟨seed0, toyApi.publicFromSecret seed0⟩⟩).isSome = true
    ∧ (Ed25519PhSigner.sign toyApi ⟨⟨seed0, toyApi.publicFromSecret seed0⟩⟩ digest0).isSome
      = true :=
  claim10_no_unwrap_panics toyApi seed0 msg0 digest0 seed0
    (by decide) (by decide) (by decide) (by decide)

end SignatoryDalek
